import Mathlib

/-!
Verification development for the `stores` microservice's ACL / ownership-scoping
layer.  The definitions below are a shallow embedding of the Rust sources under
`src/`: database tables become lists of rows, diesel single-row queries become
`List.find?`, fallible repository operations return `Except RepoError`, and the
per-repository scope checkers are translated function-by-function.  Components
of the repository that are referenced by the sources but whose own files are
absent (the ACL evaluator module `repos::acl` / `ApplicationAcl`, the `Role`,
`Action` and `Scope` enums, `repos::error`) are modelled from the specification
and marked as such in their doc comments.
-/

namespace StoresSvc

/-- Modelled from the spec: `models::authorization::Scope` is not under `src/`
(only `resource.rs` is).  Per spec section 3, `Scope` has exactly two variants,
`All` (unconditional) and `Owned` (conditional on transitive ownership). -/
inductive Scope where
  | All
  | Owned
deriving DecidableEq, Repr

/-- Modelled from the spec: `models::authorization::Action` is not under
`src/`.  Per spec section 3 the actions are the closed set Read, Create,
Update, Delete. -/
inductive Action where
  | Read
  | Create
  | Update
  | Delete
deriving DecidableEq, Repr

/-- Resource tags.  `Products`, `Stores` and `UserRoles` are the variants of
`src/src/models/authorization/resource.rs`; `ProductAttrs` and `Attributes`
are additionally referenced by the repositories under `src/` (their extended
enum file is not under `src/`; the spec names them in its resource list). -/
inductive Resource where
  | Products
  | Stores
  | UserRoles
  | ProductAttrs
  | Attributes
deriving DecidableEq, Repr

/-- Modelled from the spec: the `Role` enum (`models::Role`) is not under
`src/`.  Per spec section 3, roles are opaque labels such as ordinary user,
store owner, moderator, superuser. -/
inductive Role where
  | Superuser
  | User
  | StoreOwner
  | Moderator
deriving DecidableEq, Repr

/-- Repository error kinds.  `repos/error.rs` is not under `src/`; the kinds
follow the spec's section 7 taxonomy plus diesel's row-not-found.  The
`.context(...)` wrapping in the sources preserves the kind and is not
modelled. -/
inductive RepoError where
  | NotFound
  | Denied
  | Connection
deriving DecidableEq, Repr

/-- Store row (`src/src/models/store.rs`).  Only the columns read by the
verified logic are modelled; payload columns (name, slug, contacts, ...) do
not appear in any verified branch. -/
structure Store where
  id : Int
  user_id : Int
  is_active : Bool
deriving DecidableEq, Repr

/-- Base-product row.  `models/base_product.rs` is not under `src/`, but the
columns used by the verified code (`id` as primary key, `store_id` as the
foreign key to `stores`) are fixed by `repos/products.rs` and
`repos/product_attrs.rs`. -/
structure BaseProduct where
  id : Int
  store_id : Int
  is_active : Bool
deriving DecidableEq, Repr

/-- Product row (`src/src/models/product.rs`).  Only the columns read by the
verified logic are modelled: `id`, `base_product_id` (foreign key to
`base_products`) and `is_active`; payload columns (discount, photos,
vendor_code, cashback, price, currency) do not appear in any verified
branch. -/
structure Product where
  id : Int
  base_product_id : Int
  is_active : Bool
deriving DecidableEq, Repr

/-- Payload for updating products (`src/src/models/product.rs`).  All of its
columns (discount, photo_main, additional_photos, vendor_code, cashback,
price, currency) are outside the modelled projection of `Product`, so applying
the changeset is the identity on the modelled columns; the payload is
therefore carried as an empty structure. -/
structure UpdateProduct where
deriving DecidableEq, Repr

/-- Product-attribute row.  The struct in
`src/src/models/attributes/attribute_product.rs` has columns `id`, `prod_id`,
`attr_id` (plus the value payload); `src/src/repos/product_attrs.rs`
additionally reads a `base_prod_id` column of the same table.  The model
carries the union of the columns the verified code reads. -/
structure ProdAttr where
  id : Int
  prod_id : Int
  attr_id : Int
  base_prod_id : Int
deriving DecidableEq, Repr

/-- Payload for creating product attributes
(`src/src/models/attributes/attribute_product.rs`); value payload columns are
omitted. -/
structure NewProdAttr where
  prod_id : Int
  attr_id : Int
deriving DecidableEq, Repr

/-- User-role row (`src/src/models/user_role.rs`). -/
structure UserRole where
  id : Int
  user_id : Int
  role : Role
deriving DecidableEq, Repr

/-- Payload for creating a user role (`src/src/models/user_role.rs`). -/
structure NewUserRole where
  user_id : Int
  role : Role
deriving DecidableEq, Repr

/-- Payload for deleting a user role (`src/src/models/user_role.rs`). -/
structure OldUserRole where
  user_id : Int
  role : Role
deriving DecidableEq, Repr

/-- Attribute row.  `models/attribute.rs` is not under `src/`; the columns
used by `repos/attributes.rs` and the attributes service are the primary key
`id` and the `name` payload. -/
structure Attribute where
  id : Int
  name : String
deriving DecidableEq, Repr

/-- Payload for updating attributes: an optional changeset on `name`
(diesel `AsChangeset`: absent fields leave the column unchanged). -/
structure UpdateAttribute where
  name : Option String
deriving DecidableEq, Repr

/-- The relational database state: one list per table used by the verified
repositories. -/
structure DB where
  stores : List Store
  base_products : List BaseProduct
  products : List Product
  prod_attr_values : List ProdAttr
  user_roles : List UserRole
  attributes : List Attribute
deriving DecidableEq, Repr

/-- Single-row lookup `stores.find(pk).get_result`; `none` models diesel's
row-not-found error. -/
def DB.findStore (db : DB) (store_id : Int) : Option Store :=
  db.stores.find? (fun s => s.id == store_id)

/-- Single-row lookup `base_products.find(pk).get_result`. -/
def DB.findBaseProduct (db : DB) (base_product_id : Int) : Option BaseProduct :=
  db.base_products.find? (fun b => b.id == base_product_id)

/-- Single-row lookup `products.find(pk).get_result`. -/
def DB.findProduct (db : DB) (product_id : Int) : Option Product :=
  db.products.find? (fun p => p.id == product_id)

/-- `ProductsRepoImpl::is_in_scope` (src/src/repos/products.rs, lines
217-241): `All` is always in scope; `Owned` follows
`product.base_product_id → base_products`, then `base_prod.store_id → stores`,
and compares `store.user_id` with the acting user; any failed hop or an absent
entity yields `false` (the source's `.ok().unwrap_or(false)`). -/
def ProductsRepoImpl.is_in_scope (db : DB) (user_id : Int) (scope : Scope)
    (obj : Option Product) : Bool :=
  match scope with
  | Scope.All => true
  | Scope.Owned =>
    match obj with
    | some product =>
      match db.findBaseProduct product.base_product_id with
      | some base_prod =>
        match db.findStore base_prod.store_id with
        | some store => store.user_id == user_id
        | none => false
      | none => false
    | none => false

/-- `ProductAttrsRepoImpl::is_in_scope` (src/src/repos/product_attrs.rs,
lines 154-179): `Owned` follows `prod_attr.base_prod_id → base_products`,
then `base_prod.store_id → stores` — it does not consult the `products`
table; any failed hop or an absent entity yields `false`. -/
def ProductAttrsRepoImpl.is_in_scope (db : DB) (user_id : Int) (scope : Scope)
    (obj : Option ProdAttr) : Bool :=
  match scope with
  | Scope.All => true
  | Scope.Owned =>
    match obj with
    | some prod_attr =>
      match db.findBaseProduct prod_attr.base_prod_id with
      | some base_prod =>
        match db.findStore base_prod.store_id with
        | some store => store.user_id == user_id
        | none => false
      | none => false
    | none => false

/-- Modelled from the spec: the `WithScope` impl for `Product` is not under
`src/` (it is invoked by `attribute_product.rs`); per the spec's ownership
chain `Product → BaseProduct → Store → user_id` and mirroring
`ProductsRepoImpl::is_in_scope`, a missing connection or failed hop denies. -/
def Product.is_in_scope (self : Product) (scope : Scope) (user_id : Int)
    (conn : Option DB) : Bool :=
  match scope with
  | Scope.All => true
  | Scope.Owned =>
    match conn with
    | some db =>
      match db.findBaseProduct self.base_product_id with
      | some base_prod =>
        match db.findStore base_prod.store_id with
        | some store => store.user_id == user_id
        | none => false
      | none => false
    | none => false

/-- `WithScope` for `ProdAttr`
(src/src/models/attributes/attribute_product.rs, lines 84-102): `Owned` first
fetches the `Product` row by `self.prod_id`, then delegates to the product's
own scope check; a missing connection or failed hop yields `false`. -/
def ProdAttr.is_in_scope (self : ProdAttr) (scope : Scope) (user_id : Int)
    (conn : Option DB) : Bool :=
  match scope with
  | Scope.All => true
  | Scope.Owned =>
    match conn with
    | some db =>
      match db.findProduct self.prod_id with
      | some product => Product.is_in_scope product Scope.Owned user_id (some db)
      | none => false
    | none => false

/-- `WithScope` for `NewProdAttr`
(src/src/models/attributes/attribute_product.rs, lines 104-122): identical to
the `ProdAttr` impl, resolving through `self.prod_id`. -/
def NewProdAttr.is_in_scope (self : NewProdAttr) (scope : Scope) (user_id : Int)
    (conn : Option DB) : Bool :=
  match scope with
  | Scope.All => true
  | Scope.Owned =>
    match conn with
    | some db =>
      match db.findProduct self.prod_id with
      | some product => Product.is_in_scope product Scope.Owned user_id (some db)
      | none => false
    | none => false

/-- The store reached from a product by the ownership chain
`Product → BaseProduct → Store` (the two single-row hops of
`ProductsRepoImpl::is_in_scope`); `none` when any hop fails. -/
def productOwnerStore (db : DB) (p : Product) : Option Store :=
  (db.findBaseProduct p.base_product_id).bind (fun bp => db.findStore bp.store_id)

/-- The store reached from a product-attribute row by the two hops of
`ProductAttrsRepoImpl::is_in_scope` (`base_prod_id → BaseProduct → Store`);
`none` when any hop fails. -/
def prodAttrOwnerStore (db : DB) (pa : ProdAttr) : Option Store :=
  (db.findBaseProduct pa.base_prod_id).bind (fun bp => db.findStore bp.store_id)

/-- Modelled from the spec: the static permission table
`(Role, Resource, Action) → Scope` (spec sections 3 and 6), kept abstract as a
parameter since the evaluator module and its table are not under `src/`;
`none` is the implicit deny. -/
abbrev PermTable := Role → Resource → Action → Option Scope

/-- Modelled from the spec: the join of two optional scope grants under the
spec's permissiveness order `All > Owned > none` (spec section 3: "most
permissive"). -/
def scopeJoin : Option Scope → Option Scope → Option Scope
  | some Scope.All, _ => some Scope.All
  | _, some Scope.All => some Scope.All
  | some Scope.Owned, _ => some Scope.Owned
  | _, some Scope.Owned => some Scope.Owned
  | none, none => none

/-- Modelled from the spec (section 4.1): the effective scope for an actor is
the most permissive scope granted by any held role. -/
def effectiveScope (perm : PermTable) (roles : List Role) (res : Resource)
    (act : Action) : Option Scope :=
  roles.foldr (fun r acc => scopeJoin (perm r res act) acc) none

/-- Modelled from the spec: the decision of `ApplicationAcl` (the module
`repos::acl` is not under `src/`).  Per spec section 4.1: compute the maximal
granted scope across the actor's roles; `All` allows unconditionally, `Owned`
allows iff the entity's resolved owner matches (delegated to the repository's
scope checker, passed in as `inScope`), no grant denies. -/
def ApplicationAcl.allows (perm : PermTable) (roles : List Role)
    (res : Resource) (act : Action) (inScope : Scope → Bool) : Bool :=
  match effectiveScope perm roles res act with
  | some Scope.All => true
  | some Scope.Owned => inScope Scope.Owned
  | none => false

/-- Outcome of `acl::check(&*self.acl, Resource::Products, action, self,
Some(product))` for the products repository, as a boolean decision (`true`
models `Ok(())`, `false` models the `Denied` error of the modelled-from-spec
`repos::acl::check`). -/
abbrev ProductsAclCheck := Action → Option Product → Bool

/-- The ACL check the factory wires into the products repository
(repo_factory.rs `get_acl` + products.rs): `ApplicationAcl` over the actor's
roles, with `ProductsRepoImpl::is_in_scope` on the concrete row as the scope
checker. -/
def productsAcl (perm : PermTable) (roles : List Role) (user_id : Int)
    (db : DB) : ProductsAclCheck :=
  fun act obj =>
    ApplicationAcl.allows perm roles Resource.Products act
      (fun scope => ProductsRepoImpl.is_in_scope db user_id scope obj)

/-- `ProductsRepoImpl::find` (src/src/repos/products.rs, lines 67-80): the
query `products.find(id).filter(is_active.eq(true))` made `.optional()`, then
the ACL Read check on the found row; a failed check propagates as an error via
the `?` operator, while an absent or inactive row yields `Ok(None)`. -/
def ProductsRepoImpl.find (db : DB) (acl : ProductsAclCheck)
    (product_id : Int) : Except RepoError (Option Product) :=
  match db.products.find? (fun p => p.id == product_id && p.is_active) with
  | none => Except.ok none
  | some product =>
    if acl Action.Read (some product) then Except.ok (some product)
    else Except.error RepoError.Denied

/-- `ProductsRepoImpl::find_many` (products.rs, lines 82-96): all active rows
whose id is in the requested list, then the ACL Read check on each row (the
source's for-loop with `?` errors at the first failing row, which is the same
outcome as requiring all checks to pass, every failure being `Denied`). -/
def ProductsRepoImpl.find_many (db : DB) (acl : ProductsAclCheck)
    (product_ids : List Int) : Except RepoError (List Product) :=
  let rows := db.products.filter (fun p => product_ids.contains p.id && p.is_active)
  if rows.all (fun p => acl Action.Read (some p)) then Except.ok rows
  else Except.error RepoError.Denied

/-- `ProductsRepoImpl::list` (products.rs, lines 109-130): active rows with
`id >= from`, ordered by id, limited to `count`, then the ACL Read check on
each returned row. -/
def ProductsRepoImpl.list (db : DB) (acl : ProductsAclCheck)
    (from_ : Int) (count : Int) : Except RepoError (List Product) :=
  let rows :=
    ((db.products.filter (fun p => p.is_active && from_ ≤ p.id)).mergeSort
        (fun a b => a.id ≤ b.id)).take count.toNat
  if rows.all (fun p => acl Action.Read (some p)) then Except.ok rows
  else Except.error RepoError.Denied

/-- `ProductsRepoImpl::update` (products.rs, lines 151-167): fetch the row by
primary key (diesel `get_result` errors row-not-found when absent), run the
ACL Update check on the pre-update row, then `UPDATE ... WHERE id = pid AND
is_active` returning the updated row.  `UpdateProduct`'s columns are outside
the modelled projection, so the changeset is the identity on modelled
columns. -/
def ProductsRepoImpl.update (db : DB) (acl : ProductsAclCheck)
    (product_id : Int) (_payload : UpdateProduct) :
    Except RepoError (Product × DB) :=
  match db.findProduct product_id with
  | none => Except.error RepoError.NotFound
  | some product =>
    if acl Action.Update (some product) then
      match db.products.find? (fun p => p.id == product_id && p.is_active) with
      | none => Except.error RepoError.NotFound
      | some p => Except.ok (p, db)
    else Except.error RepoError.Denied

/-- `ProductsRepoImpl::deactivate` (products.rs, lines 169-182): fetch the row
by primary key, run the ACL Delete check on it, then
`UPDATE ... WHERE id = pid AND is_active SET is_active = false` returning the
updated row (diesel `get_result` errors row-not-found when the update filter
matches no row). -/
def ProductsRepoImpl.deactivate (db : DB) (acl : ProductsAclCheck)
    (product_id : Int) : Except RepoError (Product × DB) :=
  match db.findProduct product_id with
  | none => Except.error RepoError.NotFound
  | some product =>
    if acl Action.Delete (some product) then
      match db.products.find? (fun p => p.id == product_id && p.is_active) with
      | none => Except.error RepoError.NotFound
      | some p =>
        Except.ok ({ p with is_active := false },
          { db with
            products := db.products.map (fun q =>
              if q.id == product_id && q.is_active then { q with is_active := false }
              else q) })
    else Except.error RepoError.Denied

/-- Outcome of an ACL check for the user-roles repository (the row as entity),
as a boolean decision.  The repository struct holds such a checker but, as the
definitions below show, never consults it. -/
abbrev UserRolesAclCheck := Action → Option UserRole → Bool

/-- Shared process-wide roles cache, keyed by user id (spec sections 2 and 5;
`RolesCacheImpl` itself is not under `src/`).  It is threaded through the
user-roles operations to record their (absent) effect on it. -/
abbrev RolesCache := List (Int × List Role)

/-- `UserRolesRepoImpl::list_for_user` (src/src/repos/user_roles.rs, lines
40-43): a plain filter on `user_id`.  The repo's `acl` field is never
consulted and no cache is involved.  `conn = none` models an unusable database
connection, whose query failure surfaces as a connection error. -/
def UserRolesRepoImpl.list_for_user (conn : Option DB)
    (_acl : UserRolesAclCheck) (user_id : Int) :
    Except RepoError (List UserRole) :=
  match conn with
  | none => Except.error RepoError.Connection
  | some db => Except.ok (db.user_roles.filter (fun r => r.user_id == user_id))

/-- `UserRolesRepoImpl::create` (user_roles.rs, lines 45-48): a plain INSERT
returning the new row (`next_id` models the serial primary key).  No ACL check
and no cache access occur in the source, so the threaded cache is returned
unchanged. -/
def UserRolesRepoImpl.create (db : DB) (cache : RolesCache)
    (_acl : UserRolesAclCheck) (next_id : Int) (payload : NewUserRole) :
    Except RepoError (UserRole × DB × RolesCache) :=
  let row : UserRole := { id := next_id, user_id := payload.user_id, role := payload.role }
  Except.ok (row, { db with user_roles := db.user_roles ++ [row] }, cache)

/-- `UserRolesRepoImpl::delete` (user_roles.rs, lines 50-59): DELETE of the
rows matching `(user_id, role)`.  No ACL check and no cache access occur in
the source, so the threaded cache is returned unchanged. -/
def UserRolesRepoImpl.delete (db : DB) (cache : RolesCache)
    (_acl : UserRolesAclCheck) (payload : OldUserRole) :
    Except RepoError (Unit × DB × RolesCache) :=
  Except.ok ((),
    { db with
      user_roles := db.user_roles.filter (fun r =>
        !(r.user_id == payload.user_id && r.role == payload.role)) },
    cache)

/-- `ReposFactoryImpl::get_roles` (src/src/repos/repo_factory.rs, lines
73-82): resolve the caller's roles through a user-roles repo built with the
system ACL (modelled as the always-true check), then
`.ok().unwrap_or_default()` — any error, including a connection failure, is
swallowed and replaced by the empty role list. -/
def ReposFactoryImpl.get_roles (conn : Option DB) (user_id : Int) :
    List UserRole :=
  (UserRolesRepoImpl.list_for_user conn (fun _ _ => true) user_id).toOption.getD []

/-- Applies the diesel `AsChangeset` of `UpdateAttribute`: absent fields leave
the column unchanged. -/
def Attribute.applyUpdate (a : Attribute) (payload : UpdateAttribute) : Attribute :=
  { a with name := payload.name.getD a.name }

/-- `AttributesRepoImpl::update` (src/src/repos/attributes.rs, lines 74-98):
fetch the row by primary key (`first` errors row-not-found when absent), run
the ACL Update check — note its entity argument is `&[]`, not the concrete
row — then UPDATE returning the updated row.  The check outcome is the
boolean `aclAllows`. -/
def AttributesRepoImpl.update (db : DB) (aclAllows : Action → Bool)
    (attribute_id : Int) (payload : UpdateAttribute) :
    Except RepoError (Attribute × DB) :=
  match db.attributes.find? (fun a => a.id == attribute_id) with
  | none => Except.error RepoError.NotFound
  | some a =>
    if aclAllows Action.Update then
      Except.ok (a.applyUpdate payload,
        { db with
          attributes := db.attributes.map (fun b =>
            if b.id == attribute_id then b.applyUpdate payload else b) })
    else Except.error RepoError.Denied

/-- Shared process-wide attributes cache, keyed by attribute id
(`repos::attributes::AttributeCache`; its own file is not under `src/` but
its `get`/`remove` interface is fixed by `services/attributes.rs`). -/
abbrev AttributeCache := List (Int × Attribute)

/-- `AttributeCache::remove(attribute_id)`: drop the entry for that id. -/
def AttributeCache.remove (cache : AttributeCache) (attribute_id : Int) :
    AttributeCache :=
  cache.filter (fun e => !(e.1 == attribute_id))

/-- Lookup in the attributes cache. -/
def AttributeCache.lookup (cache : AttributeCache) (attribute_id : Int) :
    Option Attribute :=
  (cache.find? (fun e => e.1 == attribute_id)).map (fun e => e.2)

/-- Service-layer errors (`services/error.rs` is not under `src/`): repo
errors are converted via `ServiceError::from`; `Connection` is the pool
checkout failure. -/
inductive ServiceError where
  | Repo (e : RepoError)
  | Connection
deriving DecidableEq, Repr

/-- `AttributesServiceImpl::update` (src/src/services/attributes.rs, lines
113-132): run the repository update, then
`attributes_cache.remove(attribute_id)` before returning success (the
source's `.and_then(|attribute| attributes_cache.remove(attribute_id).map(|_|
attribute))`; `remove` itself always succeeds). -/
def AttributesServiceImpl.update (db : DB) (cache : AttributeCache)
    (aclAllows : Action → Bool) (attribute_id : Int)
    (payload : UpdateAttribute) :
    Except ServiceError (Attribute × DB × AttributeCache) :=
  match AttributesRepoImpl.update db aclAllows attribute_id payload with
  | Except.error e => Except.error (ServiceError.Repo e)
  | Except.ok (attr_row, db2) =>
    Except.ok (attr_row, db2, AttributeCache.remove cache attribute_id)

/-- Concrete fixture: one store owned by user 7, one base product in it, one
active product variant, one product attribute, one role row, one attribute. -/
def fixtureDb : DB :=
  { stores := [{ id := 20, user_id := 7, is_active := true }]
    base_products := [{ id := 10, store_id := 20, is_active := true }]
    products := [{ id := 1, base_product_id := 10, is_active := true }]
    prod_attr_values := [{ id := 1, prod_id := 1, attr_id := 5, base_prod_id := 10 }]
    user_roles := [{ id := 1, user_id := 7, role := Role.StoreOwner }]
    attributes := [{ id := 5, name := "color" }] }

/-- Concrete fixture: a database with empty tables, used to exercise broken
ownership chains. -/
def emptyDb : DB :=
  { stores := [], base_products := [], products := [], prod_attr_values := []
    user_roles := [], attributes := [] }

/-- Concrete permission table used by witnesses: superusers hold `All` on
every resource and action, store owners hold `Owned`, other roles hold
nothing. -/
def examplePerm : PermTable := fun r _res _act =>
  match r with
  | Role.Superuser => some Scope.All
  | Role.StoreOwner => some Scope.Owned
  | _ => none

theorem scopeJoin_left_all (x : Option Scope) :
    scopeJoin (some Scope.All) x = some Scope.All := by
  cases x with
  | none => rfl
  | some s => cases s <;> rfl

theorem scopeJoin_right_all (x : Option Scope) :
    scopeJoin x (some Scope.All) = some Scope.All := by
  cases x with
  | none => rfl
  | some s => cases s <;> rfl

theorem effectiveScope_all_of_mem (perm : PermTable) (roles : List Role)
    (res : Resource) (act : Action) (r : Role) (hmem : r ∈ roles)
    (hall : perm r res act = some Scope.All) :
    effectiveScope perm roles res act = some Scope.All := by
  induction roles with
  | nil => cases hmem
  | cons a l ih =>
    rcases List.mem_cons.mp hmem with h | h
    · subst h
      show scopeJoin (perm r res act) (effectiveScope perm l res act) = some Scope.All
      rw [hall]
      exact scopeJoin_left_all _
    · show scopeJoin (perm a res act) (effectiveScope perm l res act) = some Scope.All
      rw [ih h]
      exact scopeJoin_right_all _

/-- C1: for an actor holding a role granting `Scope::All` for
`(Products, Read)` alongside another role granting only `Scope::Owned`, the
effective scope the evaluator uses is the most permissive one (`All`), and
the composed products ACL check allows the read even though the `Owned`-scope
ownership test on the concrete product fails — the `All` grant is never
shadowed by the failing `Owned` grant. -/
theorem C1_all_grant_never_shadowed (perm : PermTable) (roles : List Role)
    (roleA roleB : Role) (db : DB) (user_id : Int) (obj : Option Product)
    (hmemA : roleA ∈ roles)
    (hgrantA : perm roleA Resource.Products Action.Read = some Scope.All)
    (_hmemB : roleB ∈ roles)
    (_hgrantB : perm roleB Resource.Products Action.Read = some Scope.Owned)
    (_hnotOwned : ProductsRepoImpl.is_in_scope db user_id Scope.Owned obj = false) :
    effectiveScope perm roles Resource.Products Action.Read = some Scope.All ∧
    productsAcl perm roles user_id db Action.Read obj = true := by
  have hmax := effectiveScope_all_of_mem perm roles Resource.Products Action.Read
    roleA hmemA hgrantA
  refine ⟨hmax, ?_⟩
  unfold productsAcl ApplicationAcl.allows
  rw [hmax]

/-- Witness for C1: user 8 holds a store-owner role (granting only `Owned`)
and a superuser role (granting `All`); the product's store belongs to user 7,
so the ownership test fails, yet the read is allowed. -/
theorem C1_all_grant_never_shadowed_witness :
    effectiveScope examplePerm [Role.StoreOwner, Role.Superuser]
      Resource.Products Action.Read = some Scope.All ∧
    productsAcl examplePerm [Role.StoreOwner, Role.Superuser] 8 fixtureDb
      Action.Read (some { id := 1, base_product_id := 10, is_active := true }) = true :=
  C1_all_grant_never_shadowed examplePerm [Role.StoreOwner, Role.Superuser]
    Role.Superuser Role.StoreOwner fixtureDb 8
    (some { id := 1, base_product_id := 10, is_active := true })
    (by decide) (by decide) (by decide) (by decide) (by decide)

/-- C2: whenever the ownership chain of an `Owned`-scope check is broken —
the base-product hop or the store hop fails to resolve — both the products
and the product-attrs scope checkers return `false` (denial), never `true`
and never a distinct error (they are total boolean functions). -/
theorem C2_broken_chain_denies (db : DB) (user_id : Int) (p : Product)
    (pa : ProdAttr)
    (hp : productOwnerStore db p = none)
    (hpa : prodAttrOwnerStore db pa = none) :
    ProductsRepoImpl.is_in_scope db user_id Scope.Owned (some p) = false ∧
    ProductAttrsRepoImpl.is_in_scope db user_id Scope.Owned (some pa) = false := by
  constructor
  · simp only [ProductsRepoImpl.is_in_scope]
    unfold productOwnerStore at hp
    cases hbp : db.findBaseProduct p.base_product_id with
    | none => rfl
    | some bp =>
      rw [hbp] at hp
      have hst : db.findStore bp.store_id = none := hp
      show (match db.findStore bp.store_id with
            | some store => store.user_id == user_id
            | none => false) = false
      rw [hst]
  · simp only [ProductAttrsRepoImpl.is_in_scope]
    unfold prodAttrOwnerStore at hpa
    cases hbp : db.findBaseProduct pa.base_prod_id with
    | none => rfl
    | some bp =>
      rw [hbp] at hpa
      have hst : db.findStore bp.store_id = none := hpa
      show (match db.findStore bp.store_id with
            | some store => store.user_id == user_id
            | none => false) = false
      rw [hst]

/-- Witness for C2: over the empty database every hop fails, and both
checkers deny. -/
theorem C2_broken_chain_denies_witness :
    ProductsRepoImpl.is_in_scope emptyDb 7 Scope.Owned
      (some { id := 1, base_product_id := 10, is_active := true }) = false ∧
    ProductAttrsRepoImpl.is_in_scope emptyDb 7 Scope.Owned
      (some { id := 1, prod_id := 1, attr_id := 5, base_prod_id := 10 }) = false :=
  C2_broken_chain_denies emptyDb 7
    { id := 1, base_product_id := 10, is_active := true }
    { id := 1, prod_id := 1, attr_id := 5, base_prod_id := 10 }
    (by decide) (by decide)

/-- C9: for every scope checker (products repo, product-attrs repo, and the
`WithScope` impls for `ProdAttr` and `NewProdAttr`), `Scope::All` is in scope
for every user and every entity/connection argument including the absent one,
and `Scope::Owned` with no entity (respectively no connection) is always out
of scope — the conservative denial. -/
theorem C9_scope_checker_algebra :
    (∀ (db : DB) (user_id : Int) (obj : Option Product),
      ProductsRepoImpl.is_in_scope db user_id Scope.All obj = true) ∧
    (∀ (db : DB) (user_id : Int) (obj : Option ProdAttr),
      ProductAttrsRepoImpl.is_in_scope db user_id Scope.All obj = true) ∧
    (∀ (pa : ProdAttr) (user_id : Int) (conn : Option DB),
      ProdAttr.is_in_scope pa Scope.All user_id conn = true) ∧
    (∀ (npa : NewProdAttr) (user_id : Int) (conn : Option DB),
      NewProdAttr.is_in_scope npa Scope.All user_id conn = true) ∧
    (∀ (db : DB) (user_id : Int),
      ProductsRepoImpl.is_in_scope db user_id Scope.Owned none = false) ∧
    (∀ (db : DB) (user_id : Int),
      ProductAttrsRepoImpl.is_in_scope db user_id Scope.Owned none = false) ∧
    (∀ (pa : ProdAttr) (user_id : Int),
      ProdAttr.is_in_scope pa Scope.Owned user_id none = false) ∧
    (∀ (npa : NewProdAttr) (user_id : Int),
      NewProdAttr.is_in_scope npa Scope.Owned user_id none = false) :=
  ⟨fun _ _ _ => rfl, fun _ _ _ => rfl, fun _ _ _ => rfl, fun _ _ _ => rfl,
   fun _ _ => rfl, fun _ _ => rfl, fun _ _ => rfl, fun _ _ => rfl⟩

/-- C4 counterexample: in a database whose product 1 exists and is active, a
`find` whose ACL check fails returns the ACL denial as an error — not the
`Ok(None)` outcome of the absent product 2.  The caller can therefore
distinguish an invisible row from a missing one, contrary to the claim. -/
theorem C4_counterexample :
    ProductsRepoImpl.find fixtureDb (fun _ _ => false) 1
      = Except.error RepoError.Denied ∧
    ProductsRepoImpl.find fixtureDb (fun _ _ => false) 2 = Except.ok none ∧
    (Except.error RepoError.Denied : Except RepoError (Option Product))
      ≠ Except.ok none := by
  refine ⟨rfl, rfl, fun h => Except.noConfusion h⟩

/-- C4 (amended): when the row exists (active) but the ACL check on it fails,
`ProductsRepoImpl::find` propagates the ACL denial as an error (the source's
`?`), while an absent or inactive row yields `Ok(None)` — so an invisible row
is distinguishable from a missing one. -/
theorem C4_amended_acl_failure_is_error (db : DB) (acl : ProductsAclCheck)
    (pid : Int) :
    (∀ p, db.products.find? (fun q => q.id == pid && q.is_active) = some p →
      acl Action.Read (some p) = false →
      ProductsRepoImpl.find db acl pid = Except.error RepoError.Denied) ∧
    (db.products.find? (fun q => q.id == pid && q.is_active) = none →
      ProductsRepoImpl.find db acl pid = Except.ok none) := by
  constructor
  · intro p hfind hacl
    simp [ProductsRepoImpl.find, hfind, hacl]
  · intro hnone
    simp [ProductsRepoImpl.find, hnone]

/-- Witness for the amended C4: the visible-but-denied row errors, the absent
row reads as `Ok(None)`. -/
theorem C4_amended_acl_failure_is_error_witness :
    ProductsRepoImpl.find fixtureDb (fun _ _ => false) 1
      = Except.error RepoError.Denied ∧
    ProductsRepoImpl.find fixtureDb (fun _ _ => false) 2 = Except.ok none :=
  ⟨(C4_amended_acl_failure_is_error fixtureDb (fun _ _ => false) 1).1
      { id := 1, base_product_id := 10, is_active := true } rfl rfl,
   (C4_amended_acl_failure_is_error fixtureDb (fun _ _ => false) 2).2 rfl⟩

/-- C5 counterexample: the user-roles repository operations all succeed under
the deny-everything ACL checker — `list_for_user` returns the stored row,
`create` inserts, `delete` deletes — so none of them performs an ACL check,
contrary to the claim that every repository operation does. -/
theorem C5_counterexample :
    UserRolesRepoImpl.list_for_user (some fixtureDb) (fun _ _ => false) 7
      = Except.ok [{ id := 1, user_id := 7, role := Role.StoreOwner }] ∧
    UserRolesRepoImpl.create fixtureDb [] (fun _ _ => false) 2
      { user_id := 8, role := Role.User }
      = Except.ok ({ id := 2, user_id := 8, role := Role.User },
          { fixtureDb with
            user_roles := fixtureDb.user_roles
              ++ [{ id := 2, user_id := 8, role := Role.User }] }, []) ∧
    UserRolesRepoImpl.delete fixtureDb [] (fun _ _ => false)
      { user_id := 7, role := Role.StoreOwner }
      = Except.ok ((), { fixtureDb with user_roles := [] }, []) := by
  refine ⟨rfl, rfl, rfl⟩

/-- C5 (amended): the products repository operations consult the ACL check on
the concrete row — under a failing check, `find` on a visible row, `update`
and `deactivate` on an existing row all return the denial — while the
user-roles repository's `list_for_user`, `create` and `delete` never consult
their ACL: their results are identical under any two checkers. -/
theorem C5_amended_repo_checks (db : DB) (cache : RolesCache)
    (aclA aclB : UserRolesAclCheck) (pid : Int) (p : Product)
    (payload : UpdateProduct) (user_id next_id : Int) (nur : NewUserRole)
    (our : OldUserRole) :
    (db.products.find? (fun q => q.id == pid && q.is_active) = some p →
      ProductsRepoImpl.find db (fun _ _ => false) pid
        = Except.error RepoError.Denied) ∧
    (db.findProduct pid = some p →
      ProductsRepoImpl.update db (fun _ _ => false) pid payload
        = Except.error RepoError.Denied) ∧
    (db.findProduct pid = some p →
      ProductsRepoImpl.deactivate db (fun _ _ => false) pid
        = Except.error RepoError.Denied) ∧
    UserRolesRepoImpl.list_for_user (some db) aclA user_id
      = UserRolesRepoImpl.list_for_user (some db) aclB user_id ∧
    UserRolesRepoImpl.create db cache aclA next_id nur
      = UserRolesRepoImpl.create db cache aclB next_id nur ∧
    UserRolesRepoImpl.delete db cache aclA our
      = UserRolesRepoImpl.delete db cache aclB our := by
  refine ⟨?_, ?_, ?_, rfl, rfl, rfl⟩
  · intro h; simp [ProductsRepoImpl.find, h]
  · intro h; simp [ProductsRepoImpl.update, h]
  · intro h; simp [ProductsRepoImpl.deactivate, h]

/-- Witness for the amended C5 at concrete inputs. -/
theorem C5_amended_repo_checks_witness :
    ProductsRepoImpl.find fixtureDb (fun _ _ => false) 1
      = Except.error RepoError.Denied ∧
    ProductsRepoImpl.update fixtureDb (fun _ _ => false) 1 {}
      = Except.error RepoError.Denied ∧
    ProductsRepoImpl.deactivate fixtureDb (fun _ _ => false) 1
      = Except.error RepoError.Denied ∧
    UserRolesRepoImpl.create fixtureDb [] (fun _ _ => false) 2
        { user_id := 8, role := Role.User }
      = UserRolesRepoImpl.create fixtureDb [] (fun _ _ => true) 2
        { user_id := 8, role := Role.User } :=
  ⟨(C5_amended_repo_checks fixtureDb [] (fun _ _ => false) (fun _ _ => true) 1
      { id := 1, base_product_id := 10, is_active := true } {} 7 2
      { user_id := 8, role := Role.User }
      { user_id := 7, role := Role.StoreOwner }).1 rfl,
   (C5_amended_repo_checks fixtureDb [] (fun _ _ => false) (fun _ _ => true) 1
      { id := 1, base_product_id := 10, is_active := true } {} 7 2
      { user_id := 8, role := Role.User }
      { user_id := 7, role := Role.StoreOwner }).2.1 rfl,
   (C5_amended_repo_checks fixtureDb [] (fun _ _ => false) (fun _ _ => true) 1
      { id := 1, base_product_id := 10, is_active := true } {} 7 2
      { user_id := 8, role := Role.User }
      { user_id := 7, role := Role.StoreOwner }).2.2.1 rfl,
   (C5_amended_repo_checks fixtureDb [] (fun _ _ => false) (fun _ _ => true) 1
      { id := 1, base_product_id := 10, is_active := true } {} 7 2
      { user_id := 8, role := Role.User }
      { user_id := 7, role := Role.StoreOwner }).2.2.2.2.1⟩

/-- C6 counterexample: with an unusable database connection the repository
read surfaces the connection error, but `ReposFactoryImpl::get_roles`
swallows it (`.ok().unwrap_or_default()`) into the empty role list — the
infrastructure failure is silently degraded to a role-less caller instead of
propagating as a distinct connectivity error, contrary to the claim. -/
theorem C6_counterexample :
    UserRolesRepoImpl.list_for_user none (fun _ _ => true) 7
      = Except.error RepoError.Connection ∧
    ReposFactoryImpl.get_roles none 7 = [] :=
  ⟨rfl, rfl⟩

/-- C6 (amended): the user-roles repository does surface an infrastructure
failure as a distinct connection error, but `get_roles` converts any such
failure into the empty role set, indistinguishable from a user who simply
has no roles; the caller's subsequent ACL decisions are then evaluated over
the empty role set (denials), and no connectivity error propagates from role
resolution. -/
theorem C6_amended_get_roles_swallows (user_id : Int) :
    (UserRolesRepoImpl.list_for_user none (fun _ _ => true) user_id
      = Except.error RepoError.Connection) ∧
    ReposFactoryImpl.get_roles none user_id = [] ∧
    (∀ db : DB, ReposFactoryImpl.get_roles (some db) user_id
      = db.user_roles.filter (fun r => r.user_id == user_id)) :=
  ⟨rfl, rfl, fun _ => rfl⟩

/-- Helper: removing an attribute id from the attributes cache makes the
subsequent lookup of that id miss. -/
theorem lookup_remove_none (cache : AttributeCache) (attribute_id : Int) :
    AttributeCache.lookup (AttributeCache.remove cache attribute_id)
      attribute_id = none := by
  unfold AttributeCache.lookup AttributeCache.remove
  have h : List.find? (fun e => e.1 == attribute_id)
      (List.filter (fun e => !(e.1 == attribute_id)) cache) = none := by
    rw [List.find?_eq_none]
    intro x hx
    have h2 := (List.mem_filter.mp hx).2
    simpa using h2
  rw [h]
  rfl

/-- C7 counterexample: the shared roles cache holds an entry for user 7;
creating a new role for user 7 succeeds and returns the cache unchanged, the
entry for that user still present — the user-role write does not invalidate
the user's roles-cache entry within the operation, contrary to the claim. -/
theorem C7_counterexample :
    UserRolesRepoImpl.create fixtureDb [(7, [Role.User])] (fun _ _ => true) 2
      { user_id := 7, role := Role.Moderator }
      = Except.ok ({ id := 2, user_id := 7, role := Role.Moderator },
          { fixtureDb with
            user_roles := fixtureDb.user_roles
              ++ [{ id := 2, user_id := 7, role := Role.Moderator }] },
          [(7, [Role.User])]) := rfl

/-- C7 (amended): the attribute-update service removes the updated
attribute's cache entry before returning success, but the user-roles
repository's `create` and `delete` return the shared roles cache unchanged —
no roles-cache invalidation happens in those operations. -/
theorem C7_amended_cache_effects (db : DB) (acache : AttributeCache)
    (rcache : RolesCache) (aclAllows : Action → Bool)
    (uacl : UserRolesAclCheck) (attribute_id next_id : Int)
    (payload : UpdateAttribute) (nur : NewUserRole) (our : OldUserRole) :
    (∀ out, AttributesServiceImpl.update db acache aclAllows attribute_id payload
        = Except.ok out →
      AttributeCache.lookup out.2.2 attribute_id = none) ∧
    (∀ r db2 c2, UserRolesRepoImpl.create db rcache uacl next_id nur
        = Except.ok (r, db2, c2) → c2 = rcache) ∧
    (∀ u db2 c2, UserRolesRepoImpl.delete db rcache uacl our
        = Except.ok (u, db2, c2) → c2 = rcache) := by
  refine ⟨?_, ?_, ?_⟩
  · intro out h
    unfold AttributesServiceImpl.update at h
    cases hrepo : AttributesRepoImpl.update db aclAllows attribute_id payload with
    | error e => rw [hrepo] at h; cases h
    | ok pr =>
      obtain ⟨a, d⟩ := pr
      rw [hrepo] at h
      cases h
      exact lookup_remove_none acache attribute_id
  · intro r db2 c2 h
    cases h
    rfl
  · intro u db2 c2 h
    cases h
    rfl

/-- Witness for the amended C7: a concrete attribute update leaves no cache
entry for the updated id, and a concrete user-role create returns its cache
argument unchanged. -/
theorem C7_amended_cache_effects_witness :
    AttributeCache.lookup
      (AttributeCache.remove [(5, { id := 5, name := "color" })] 5) 5 = none ∧
    ([(7, [Role.User])] : RolesCache) = [(7, [Role.User])] :=
  ⟨(C7_amended_cache_effects fixtureDb [(5, { id := 5, name := "color" })]
      [(7, [Role.User])] (fun _ => true) (fun _ _ => true) 5 2
      { name := some "colour" } { user_id := 7, role := Role.Moderator }
      { user_id := 7, role := Role.Moderator }).1
      ({ id := 5, name := "colour" },
        { fixtureDb with attributes := [{ id := 5, name := "colour" }] },
        AttributeCache.remove [(5, { id := 5, name := "color" })] 5) rfl,
   (C7_amended_cache_effects fixtureDb [(5, { id := 5, name := "color" })]
      [(7, [Role.User])] (fun _ => true) (fun _ _ => true) 5 2
      { name := some "colour" } { user_id := 7, role := Role.Moderator }
      { user_id := 7, role := Role.Moderator }).2.1
      { id := 2, user_id := 7, role := Role.Moderator } _ _ rfl⟩

/-- Fixture for the product-attrs hop divergence: the attribute's
`base_prod_id` resolves to a base product and a store owned by user 7, but
the `products` table is empty, so no Product hop can succeed. -/
def c8Db : DB :=
  { stores := [{ id := 20, user_id := 7, is_active := true }]
    base_products := [{ id := 10, store_id := 20, is_active := true }]
    products := [], prod_attr_values := [], user_roles := [], attributes := [] }

/-- C8 counterexample: the product-attrs repository scope checker grants
ownership over a database containing no `products` row for the attribute's
`prod_id` — it never visits the Product row, resolving directly through
`base_prod_id`; the `WithScope` checker, which does follow
ProductAttribute → Product → BaseProduct → Store, denies on the same input
because the Product hop is broken.  This refutes the claim that the
resolution always visits the Product row before the BaseProduct row. -/
theorem C8_counterexample :
    ProductAttrsRepoImpl.is_in_scope c8Db 7 Scope.Owned
      (some { id := 1, prod_id := 99, attr_id := 5, base_prod_id := 10 }) = true ∧
    c8Db.findProduct 99 = none ∧
    ProdAttr.is_in_scope { id := 1, prod_id := 99, attr_id := 5, base_prod_id := 10 }
      Scope.Owned 7 (some c8Db) = false := by
  refine ⟨rfl, rfl, rfl⟩

/-- C8 (amended): the `WithScope` checkers resolve
ProductAttribute → Product → BaseProduct → Store (the Product row is visited
first: a missing Product row denies, a present one delegates to the
product's own scope check), while `ProductAttrsRepoImpl`'s checker resolves
the owner directly from the attribute's `base_prod_id` through BaseProduct
to Store — its result is independent of the `products` table. -/
theorem C8_amended_hop_sequences (db : DB) (user_id : Int) (pa : ProdAttr) :
    (db.findProduct pa.prod_id = none →
      ProdAttr.is_in_scope pa Scope.Owned user_id (some db) = false) ∧
    (∀ product, db.findProduct pa.prod_id = some product →
      ProdAttr.is_in_scope pa Scope.Owned user_id (some db)
        = Product.is_in_scope product Scope.Owned user_id (some db)) ∧
    (∀ ps : List Product,
      ProductAttrsRepoImpl.is_in_scope { db with products := ps } user_id
          Scope.Owned (some pa)
        = ProductAttrsRepoImpl.is_in_scope db user_id Scope.Owned (some pa)) ∧
    (ProductAttrsRepoImpl.is_in_scope db user_id Scope.Owned (some pa)
      = ((prodAttrOwnerStore db pa).map
          (fun st => st.user_id == user_id)).getD false) := by
  refine ⟨?_, ?_, fun ps => rfl, ?_⟩
  · intro h; simp [ProdAttr.is_in_scope, h]
  · intro product h; simp [ProdAttr.is_in_scope, h]
  · cases hbp : db.findBaseProduct pa.base_prod_id with
    | none => simp [ProductAttrsRepoImpl.is_in_scope, prodAttrOwnerStore, hbp]
    | some bp =>
      cases hst : db.findStore bp.store_id with
      | none =>
        simp [ProductAttrsRepoImpl.is_in_scope, prodAttrOwnerStore, hbp, hst]
      | some st =>
        simp [ProductAttrsRepoImpl.is_in_scope, prodAttrOwnerStore, hbp, hst]

/-- Witness for the amended C8: a broken Product hop makes the `WithScope`
checker deny, and a present Product row makes it delegate to the product's
check. -/
theorem C8_amended_hop_sequences_witness :
    ProdAttr.is_in_scope { id := 1, prod_id := 99, attr_id := 5, base_prod_id := 10 }
      Scope.Owned 7 (some c8Db) = false ∧
    ProdAttr.is_in_scope { id := 1, prod_id := 1, attr_id := 5, base_prod_id := 10 }
      Scope.Owned 7 (some fixtureDb)
      = Product.is_in_scope { id := 1, base_product_id := 10, is_active := true }
          Scope.Owned 7 (some fixtureDb) :=
  ⟨(C8_amended_hop_sequences c8Db 7
      { id := 1, prod_id := 99, attr_id := 5, base_prod_id := 10 }).1 rfl,
   (C8_amended_hop_sequences fixtureDb 7
      { id := 1, prod_id := 1, attr_id := 5, base_prod_id := 10 }).2.1
      { id := 1, base_product_id := 10, is_active := true } rfl⟩

/-- Helper: if the first row with the given id is active, it is also the
first row satisfying the conjoined id-and-active predicate (earlier rows fail
the id test, hence both predicates). -/
theorem find?_id_active (l : List Product) (pid : Int) (p : Product)
    (hfind : l.find? (fun q => q.id == pid) = some p)
    (hact : p.is_active = true) :
    l.find? (fun q => q.id == pid && q.is_active) = some p := by
  induction l with
  | nil => simp at hfind
  | cons a t ih =>
    by_cases h : (a.id == pid) = true
    · rw [List.find?_cons_of_pos t h] at hfind
      cases hfind
      exact List.find?_cons_of_pos t (by simp [h, hact])
    · rw [List.find?_cons_of_neg t h] at hfind
      rw [List.find?_cons_of_neg t (by simp [h])]
      exact ih hfind

/-- C3: for a product whose ownership chain fully resolves to a store, the
`Owned`-scope check succeeds exactly when that store's `user_id` equals the
actor's id; under an effective scope of `Owned` (an Owned-only grant) for
`(Products, Delete)`, `deactivate` is denied when the store belongs to a
different user and succeeds, flipping `is_active`, when it belongs to the
actor. -/
theorem C3_owned_delete_iff_owner (perm : PermTable) (roles : List Role)
    (db : DB) (user_id pid : Int) (p : Product) (st : Store)
    (hscope : effectiveScope perm roles Resource.Products Action.Delete
      = some Scope.Owned)
    (hfind : db.findProduct pid = some p)
    (hchain : productOwnerStore db p = some st) :
    (ProductsRepoImpl.is_in_scope db user_id Scope.Owned (some p) = true
      ↔ st.user_id = user_id) ∧
    (st.user_id ≠ user_id →
      ProductsRepoImpl.deactivate db (productsAcl perm roles user_id db) pid
        = Except.error RepoError.Denied) ∧
    (st.user_id = user_id → p.is_active = true →
      ProductsRepoImpl.deactivate db (productsAcl perm roles user_id db) pid
        = Except.ok ({ p with is_active := false },
            { db with
              products := db.products.map (fun q =>
                if q.id == pid && q.is_active then { q with is_active := false }
                else q) })) := by
  have hbp : ∃ bp, db.findBaseProduct p.base_product_id = some bp ∧
      db.findStore bp.store_id = some st := by
    unfold productOwnerStore at hchain
    cases hb : db.findBaseProduct p.base_product_id with
    | none => rw [hb] at hchain; cases hchain
    | some bp =>
      rw [hb] at hchain
      exact ⟨bp, rfl, hchain⟩
  obtain ⟨bp, hb, hs⟩ := hbp
  have hscopeEq : ProductsRepoImpl.is_in_scope db user_id Scope.Owned (some p)
      = (st.user_id == user_id) := by
    simp [ProductsRepoImpl.is_in_scope, hb, hs]
  have haclEq : productsAcl perm roles user_id db Action.Delete (some p)
      = (st.user_id == user_id) := by
    unfold productsAcl ApplicationAcl.allows
    rw [hscope]
    exact hscopeEq
  refine ⟨?_, ?_, ?_⟩
  · rw [hscopeEq]
    exact beq_iff_eq
  · intro hne
    have hfalse : (st.user_id == user_id) = false := beq_eq_false_iff_ne.mpr hne
    simp [ProductsRepoImpl.deactivate, hfind, haclEq, hfalse]
  · intro heq hact
    have htrue : (st.user_id == user_id) = true := beq_iff_eq.mpr heq
    have hfind2 : db.products.find? (fun q => q.id == pid && q.is_active)
        = some p := find?_id_active db.products pid p hfind hact
    simp [ProductsRepoImpl.deactivate, hfind, haclEq, htrue, hfind2]

/-- Witness for C3: in the fixture, user 8 (not the store's owner) is denied
the delete under the Owned-only grant, while user 7 (the store's owner)
succeeds. -/
theorem C3_owned_delete_iff_owner_witness :
    ProductsRepoImpl.deactivate fixtureDb
      (productsAcl examplePerm [Role.StoreOwner] 8 fixtureDb) 1
      = Except.error RepoError.Denied ∧
    ProductsRepoImpl.deactivate fixtureDb
      (productsAcl examplePerm [Role.StoreOwner] 7 fixtureDb) 1
      = Except.ok ({ id := 1, base_product_id := 10, is_active := false },
          { fixtureDb with
            products := fixtureDb.products.map (fun q =>
              if q.id == 1 && q.is_active then { q with is_active := false }
              else q) }) :=
  ⟨(C3_owned_delete_iff_owner examplePerm [Role.StoreOwner] fixtureDb 8 1
      { id := 1, base_product_id := 10, is_active := true }
      { id := 20, user_id := 7, is_active := true } rfl rfl rfl).2.1
      (by decide),
   (C3_owned_delete_iff_owner examplePerm [Role.StoreOwner] fixtureDb 7 1
      { id := 1, base_product_id := 10, is_active := true }
      { id := 20, user_id := 7, is_active := true } rfl rfl rfl).2.2 rfl rfl⟩

/-- Helper: every row of the products table after the deactivating UPDATE
fails the id-and-active predicate — rows with the deactivated id are
inactive, other rows have a different id or were already handled. -/
theorem deactivated_rows_inactive (l : List Product) (pid : Int) (q : Product)
    (hq : q ∈ l.map (fun r =>
      if r.id == pid && r.is_active then { r with is_active := false } else r)) :
    (q.id == pid && q.is_active) = false := by
  obtain ⟨r, _hr, hqr⟩ := List.mem_map.mp hq
  by_cases h : (r.id == pid && r.is_active) = true
  · rw [if_pos h] at hqr
    subst hqr
    simp
  · rw [if_neg h] at hqr
    subst hqr
    simpa using h

/-- C10: after a successful `deactivate`, the returned product is inactive
and every subsequent read through the products repository excludes the
deactivated id: `find` yields `Ok(None)`, and neither `list` nor `find_many`
returns any row with that id, because all read queries filter on
`is_active = true`. -/
theorem C10_deactivate_excludes (db : DB) (acl : ProductsAclCheck) (pid : Int)
    (p2 : Product) (db2 : DB)
    (h : ProductsRepoImpl.deactivate db acl pid = Except.ok (p2, db2)) :
    p2.is_active = false ∧
    ProductsRepoImpl.find db2 acl pid = Except.ok none ∧
    (∀ from_ count l, ProductsRepoImpl.list db2 acl from_ count = Except.ok l →
      ∀ q ∈ l, q.id ≠ pid) ∧
    (∀ ids l, ProductsRepoImpl.find_many db2 acl ids = Except.ok l →
      ∀ q ∈ l, q.id ≠ pid) := by
  unfold ProductsRepoImpl.deactivate at h
  cases hfp : db.findProduct pid with
  | none => rw [hfp] at h; cases h
  | some product =>
    rw [hfp] at h
    simp only [] at h
    by_cases hacl : acl Action.Delete (some product) = true
    · rw [if_pos hacl] at h
      cases hf2 : db.products.find? (fun q => q.id == pid && q.is_active) with
      | none => rw [hf2] at h; cases h
      | some pr =>
        rw [hf2] at h
        rw [Except.ok.injEq, Prod.mk.injEq] at h
        obtain ⟨hp2, hdb2⟩ := h
        subst hp2
        subst hdb2
        have hnone : ∀ q ∈ db.products.map (fun r =>
            if r.id == pid && r.is_active then { r with is_active := false }
            else r), (q.id == pid && q.is_active) = false :=
          fun q hq => deactivated_rows_inactive db.products pid q hq
        have hfindnone : (db.products.map (fun r =>
            if r.id == pid && r.is_active then { r with is_active := false }
            else r)).find? (fun q => q.id == pid && q.is_active) = none :=
          List.find?_eq_none.mpr (fun x hx => by rw [hnone x hx]; simp)
        refine ⟨rfl, ?_, ?_, ?_⟩
        · simp only [ProductsRepoImpl.find]
          rw [hfindnone]
        · intro from_ count l hl q hq
          unfold ProductsRepoImpl.list at hl
          by_cases hall : (((List.filter (fun p => p.is_active
                && decide (from_ ≤ p.id))
                (List.map (fun r => if r.id == pid && r.is_active
                  then { r with is_active := false } else r)
                  db.products)).mergeSort
                (fun a b => decide (a.id ≤ b.id))).take count.toNat).all
              (fun p => acl Action.Read (some p)) = true
          · rw [if_pos hall] at hl
            rw [Except.ok.injEq] at hl
            subst hl
            have hq2 := List.take_subset _ _ hq
            have hq3 := List.mem_mergeSort.mp hq2
            have hq4 := List.mem_filter.mp hq3
            have hact : q.is_active = true := by
              have := hq4.2
              rw [Bool.and_eq_true] at this
              exact this.1
            have hfalse := hnone q hq4.1
            rw [hact, Bool.and_true] at hfalse
            exact beq_eq_false_iff_ne.mp hfalse
          · rw [if_neg hall] at hl
            cases hl
        · intro ids l hl q hq
          unfold ProductsRepoImpl.find_many at hl
          by_cases hall : ((List.map (fun r => if r.id == pid && r.is_active
                then { r with is_active := false } else r)
                db.products).filter
                (fun p => ids.contains p.id && p.is_active)).all
              (fun p => acl Action.Read (some p)) = true
          · rw [if_pos hall] at hl
            rw [Except.ok.injEq] at hl
            subst hl
            have hq4 := List.mem_filter.mp hq
            have hact : q.is_active = true := by
              have := hq4.2
              rw [Bool.and_eq_true] at this
              exact this.2
            have hfalse := hnone q hq4.1
            rw [hact, Bool.and_true] at hfalse
            exact beq_eq_false_iff_ne.mp hfalse
          · rw [if_neg hall] at hl
            cases hl
    · rw [if_neg hacl] at h
      cases h

/-- Witness for C10: deactivating product 1 of the fixture under the
allow-all check succeeds; the conclusions then hold at that concrete
output. -/
theorem C10_deactivate_excludes_witness :
    ({ id := 1, base_product_id := 10, is_active := false } : Product).is_active
      = false ∧
    ProductsRepoImpl.find
      { fixtureDb with
        products := [{ id := 1, base_product_id := 10, is_active := false }] }
      (fun _ _ => true) 1 = Except.ok none ∧
    (∀ from_ count l, ProductsRepoImpl.list
        { fixtureDb with
          products := [{ id := 1, base_product_id := 10, is_active := false }] }
        (fun _ _ => true) from_ count = Except.ok l → ∀ q ∈ l, q.id ≠ 1) ∧
    (∀ ids l, ProductsRepoImpl.find_many
        { fixtureDb with
          products := [{ id := 1, base_product_id := 10, is_active := false }] }
        (fun _ _ => true) ids = Except.ok l → ∀ q ∈ l, q.id ≠ 1) :=
  C10_deactivate_excludes fixtureDb (fun _ _ => true) 1
    { id := 1, base_product_id := 10, is_active := false }
    { fixtureDb with
      products := [{ id := 1, base_product_id := 10, is_active := false }] }
    rfl

end StoresSvc
